import Mathlib

/-!
Verification development for the Portfolio Builder CRUD API
(Express + Mongoose, four collections: themes, users, projects, skills).

The route handlers, Mongoose schema validation pipeline, the shared error
mapper, and the token gate are shallowly embedded as pure Lean functions.
Persistence is a plain list of records; the clock and the random source of
the token generator are explicit parameters. Machine-level concerns
(HTTP parsing, the database driver) are outside the embedding; each
handler takes the decoded request body and the current store and returns
the JSON envelope together with the successor store.
-/

namespace Portfolio

/-- JSON response envelope used across the API: HTTP status plus the fields
the handlers put into the body (`success`, `error` kind, `message`,
`details`, the payload `data`, list `count`, the echoed `filter`, and the
auth-only `token` / `hint` / `instructions` fields). Absent JSON keys are
`none` / `[]`. -/
structure ApiResponse (A : Type) where
  status : Nat
  success : Bool
  error : Option String := none
  message : Option String := none
  details : List String := []
  data : Option A := none
  count : Option Nat := none
  filterEcho : Option (Option String × Option String) := none
  token : Option String := none
  hint : Option String := none
  instructions : Option String := none
deriving Repr, DecidableEq

/-- Shape of a JavaScript error value as inspected by `handleError`
(`middleware/errorHandler`): its `name`, the numeric Mongo `code`,
`Object.keys(error.keyValue)`, the per-field messages collected from
`error.errors`, and the raw `message`. -/
structure JsError where
  name : String
  code : Option Nat := none
  keyValueKeys : List String := []
  errorMessages : List String := []
  message : String := ""
deriving Repr, DecidableEq

/-- The shared error mapper `handleError(res, error)`: inspects the failure
first for `ValidationError`, then Mongo duplicate-key code `11000`, then
`CastError`, and falls through to 500. -/
def handleError (e : JsError) : ApiResponse Unit :=
  if e.name = "ValidationError" then
    { status := 400, success := false, error := some "Validation Error",
      details := e.errorMessages }
  else if e.code = some 11000 then
    { status := 400, success := false, error := some "Duplicate Entry",
      message := some (e.keyValueKeys.headD "undefined" ++ " already exists") }
  else if e.name = "CastError" then
    { status := 400, success := false, error := some "Invalid ID format" }
  else
    { status := 500, success := false, error := some "Internal Server Error",
      message := some e.message }

/-- Is `c` a hexadecimal digit. -/
def isHexChar (c : Char) : Bool :=
  c.isDigit || (('a' ≤ c && c ≤ 'f') || ('A' ≤ c && c ≤ 'F'))

/-- Embedding of `mongoose.Types.ObjectId.isValid` on a string argument: a 24-character
hex string, or any 12-character string (interpreted as raw bytes). -/
def ObjectId.isValid (s : String) : Bool :=
  s.length == 12 || (s.length == 24 && s.data.all isHexChar)

/-- The `validateObjectId` middleware of the project router: if a (nonempty)
`:id` path parameter is not a structurally valid object id, answer 400
`Invalid ID format` before the handler runs; otherwise pass through
(`none`). -/
def validateObjectId (id : String) : Option (ApiResponse Unit) :=
  if id ≠ "" && !(ObjectId.isValid id) then
    some { status := 400, success := false, error := some "Invalid ID format" }
  else
    none

/-! ### Generic list plumbing shared by the four resource routers -/

/-- Core `String.trim` restated structurally on the character list (the core
version recurses on byte positions and does not kernel-reduce): drop
whitespace from both ends. -/
def trimStr (s : String) : String :=
  String.mk (((s.data.dropWhile Char.isWhitespace).reverse.dropWhile
    Char.isWhitespace).reverse)

/-- Core `String.toLower` restated structurally on the character list. -/
def toLowerStr (s : String) : String := String.mk (s.data.map Char.toLower)

/-- JavaScript truthiness test used by the required-field pre-checks of the
routers on string-valued body fields: absent or empty means falsy. -/
def strFalsy : Option String → Bool
  | none => true
  | some s => s == ""

/-- The `findOneAndUpdate` semantics on the embedded store: rewrite the first
record satisfying the query predicate, leave every other record alone. -/
def updateFirstBy {A : Type} (p : A → Bool) (f : A → A) : List A → List A
  | [] => []
  | x :: xs => if p x then f x :: xs else x :: updateFirstBy p f xs

/-- Insert into a list kept in descending key order. -/
def insertByKeyDesc {A : Type} (key : A → Nat) (x : A) : List A → List A
  | [] => [x]
  | y :: ys => if key y < key x then x :: y :: ys else y :: insertByKeyDesc key x ys

/-- The `.sort(\x7b createdAt: -1 \x7d)` stage of the list handlers:
newest-created first. -/
def sortByKeyDesc {A : Type} (key : A → Nat) : List A → List A
  | [] => []
  | x :: xs => insertByKeyDesc key x (sortByKeyDesc key xs)

/-- Case-insensitive whole-string match: the embedding of
`new RegExp(String.raw\x7b^...\x7d, i).test` as used with anchors
by the skill update and delete handlers, for keys free of regex
metacharacters. -/
def ciEq (a b : String) : Bool := toLowerStr a == toLowerStr b

/-- Case-insensitive substring match: the embedding of the unanchored
`new RegExp(key, i)` queries of the get-by-key handlers, for keys free of
regex metacharacters. -/
def ciContains (s pat : String) : Bool :=
  let p := (toLowerStr pat).data
  let t := (toLowerStr s).data
  (List.range (t.length + 1)).any fun i => p.isPrefixOf (t.drop i)

/-- Message text of a Mongo E11000 unique-index violation; the theme
handlers surface it raw because their catch blocks have no duplicate
branch. -/
def e11000Message (field : String) : String :=
  "E11000 duplicate key error collection portfolio index " ++ field

/-! ### Theme: schema (models/Theme.js) and router (routes/themes.js) -/

/-- A stored Theme document. -/
structure Theme where
  themeName : String
  primaryColor : String
  secondaryColor : String
  fontFamily : String
  isActive : Bool := true
  createdAt : Nat := 0
  updatedAt : Nat := 0
deriving Repr, DecidableEq

/-- Raw POST /theme request body; absent JSON keys are `none`. -/
structure ThemeInput where
  themeName : Option String := none
  primaryColor : Option String := none
  secondaryColor : Option String := none
  fontFamily : Option String := none
deriving Repr, DecidableEq

/-- The color pattern of the theme schema: a hash sign followed by exactly
six or exactly three hex digits. -/
def isHexColor (s : String) : Bool :=
  match s.data with
  | '#' :: rest => (rest.length == 6 || rest.length == 3) && rest.all isHexChar
  | _ => false

/-- The fontFamily enum of the theme schema. -/
def themeFonts : List String :=
  ["Arial", "Helvetica", "Times New Roman", "Georgia", "Verdana", "Roboto",
   "Open Sans"]

/-- Mongoose validation run by `new Theme(data).save()`: required checks,
minlength on the trimmed name, the color pattern, the font enum; failures
are collected per field, not fail-fast. -/
def themeValidationErrors (b : ThemeInput) : List String :=
  (match b.themeName with
   | none => ["Theme name is required"]
   | some s =>
     let v := trimStr s
     if v = "" then ["Theme name is required"]
     else if v.length < 2 then ["Theme name must be at least 2 characters long"]
     else []) ++
  (match b.primaryColor with
   | none => ["Primary color is required"]
   | some s =>
     if s = "" then ["Primary color is required"]
     else if isHexColor s then [] else ["Invalid color format"]) ++
  (match b.secondaryColor with
   | none => ["Secondary color is required"]
   | some s =>
     if s = "" then ["Secondary color is required"]
     else if isHexColor s then [] else ["Invalid color format"]) ++
  (match b.fontFamily with
   | none => ["Font family is required"]
   | some s =>
     if s = "" then ["Font family is required"]
     else if themeFonts.contains s then []
     else [s ++ " is not a valid enum value for path fontFamily"])

/-- Schema setters, defaults and the pre-save hook applied by
`new Theme(data)` before insertion at clock value `now`. -/
def mkTheme (now : Nat) (b : ThemeInput) : Theme :=
  { themeName := trimStr (b.themeName.getD "")
    primaryColor := b.primaryColor.getD ""
    secondaryColor := b.secondaryColor.getD ""
    fontFamily := b.fontFamily.getD ""
    isActive := true
    createdAt := now
    updatedAt := now }

/-- The unique index on themeName spans every document, active or not. -/
def hasThemeName (store : List Theme) (n : String) : Bool :=
  store.any fun t => t.themeName == n

/-- POST /theme (after `authenticate`): save the new theme; the catch block
maps ValidationError to 400 but has no `code === 11000` branch, so a
duplicate-key failure falls through to the generic 500 whose `error` field
is the raw error message. -/
def createTheme (now : Nat) (store : List Theme) (b : ThemeInput) :
    ApiResponse Theme × List Theme :=
  let errs := themeValidationErrors b
  if errs ≠ [] then
    ({ status := 400, success := false, error := some "Validation Error",
       details := errs }, store)
  else
    let t := mkTheme now b
    if hasThemeName store t.themeName then
      ({ status := 500, success := false,
         error := some (e11000Message "themeName") }, store)
    else
      ({ status := 201, success := true,
         message := some "Theme created successfully", data := some t },
       store ++ [t])

/-- PUT /theme/:themeName request body (themeName is deleted by the handler
before the query, making the natural key immutable). -/
structure ThemeUpdate where
  themeName : Option String := none
  primaryColor : Option String := none
  secondaryColor : Option String := none
  fontFamily : Option String := none
deriving Repr, DecidableEq

/-- With `runValidators: true` on the update path: validators run on the fields
present in the update document. -/
def themeUpdateErrors (b : ThemeUpdate) : List String :=
  (match b.primaryColor with
   | none => []
   | some s => if isHexColor s then [] else ["Invalid color format"]) ++
  (match b.secondaryColor with
   | none => []
   | some s => if isHexColor s then [] else ["Invalid color format"]) ++
  (match b.fontFamily with
   | none => []
   | some s =>
     if themeFonts.contains s then []
     else [s ++ " is not a valid enum value for path fontFamily"])

/-- Apply the update document to a matched theme; `findOneAndUpdate` runs
no save hook, so `updatedAt` is left untouched. -/
def applyThemeUpdate (b : ThemeUpdate) (t : Theme) : Theme :=
  { t with
    primaryColor := b.primaryColor.getD t.primaryColor
    secondaryColor := b.secondaryColor.getD t.secondaryColor
    fontFamily := b.fontFamily.getD t.fontFamily }

/-- PUT /theme/:themeName (after `authenticate`):
`Theme.findOneAndUpdate(\x7b themeName, isActive: true \x7d, ...)` with an
exact, case-sensitive key; 404 when no active theme matches; the catch
block maps every failure, validation included, to 500 with the raw
message. -/
def updateTheme (store : List Theme) (key : String) (b : ThemeUpdate) :
    ApiResponse Theme × List Theme :=
  let errs := themeUpdateErrors b
  if errs ≠ [] then
    ({ status := 500, success := false,
       error := some ("Validation failed: " ++ String.intercalate ", " errs) },
     store)
  else
    match store.find? (fun t => t.themeName == key && t.isActive) with
    | none => ({ status := 404, success := false,
                 message := some "Theme not found" }, store)
    | some m =>
      ({ status := 200, success := true,
         message := some "Theme updated successfully",
         data := some (applyThemeUpdate b m) },
       updateFirstBy (fun t => t.themeName == key && t.isActive)
         (applyThemeUpdate b) store)

/-- DELETE /theme/:themeName:
`Theme.findOneAndUpdate(\x7b themeName, isActive: true \x7d,
\x7b isActive: false \x7d, \x7b new: true \x7d)`. The update document sets
only `isActive`; no save hook runs, so the clock `now` is never consulted
and `updatedAt` keeps its old value. Answers a confirmation without the
record, or 404 when no active theme matches the exact key. -/
def deleteTheme (now : Nat) (store : List Theme) (key : String) :
    ApiResponse Theme × List Theme :=
  if store.any (fun t => t.themeName == key && t.isActive) then
    ({ status := 200, success := true,
       message := some "Theme deleted successfully" },
     updateFirstBy (fun t => t.themeName == key && t.isActive)
       (fun t => { t with isActive := false }) store)
  else
    ({ status := 404, success := false, message := some "Theme not found" },
     store)

/-! ### User: schema (models/User.js) and router (routes/users.js) -/

/-- JavaScript regex word character: letter, digit or underscore. -/
def isWordChar (c : Char) : Bool := c.isAlphanum || c == '_'

/-- Tail of the regex fragment w+([.-]?w+)* after its first word
character: word characters with single dots or hyphens strictly between
word characters. -/
def chunkTail : List Char → Bool
  | [] => true
  | c :: rest =>
    if isWordChar c then chunkTail rest
    else if c == '.' || c == '-' then
      match rest with
      | d :: rest2 => isWordChar d && chunkTail rest2
      | [] => false
    else false

/-- The language of the regex fragment w+([.-]?w+)* . -/
def chunkWord : List Char → Bool
  | [] => false
  | c :: rest => isWordChar c && chunkTail rest

/-- The language of the regex fragment (\.w\x7b2,3\x7d)+ : one or more
groups of a dot followed by two or three word characters. -/
def tldTail : List Char → Bool
  | ['.', c1, c2] => isWordChar c1 && isWordChar c2
  | '.' :: c1 :: c2 :: c3 :: rest =>
    isWordChar c1 && isWordChar c2 &&
    ((isWordChar c3 && (rest.isEmpty || tldTail rest)) || tldTail (c3 :: rest))
  | _ => false

/-- Domain side of the email pattern: w+([.-]?w+)* then (\.w\x7b2,3\x7d)+,
decided by trying every split point (regex backtracking explores the same
splits). -/
def domainMatch (cs : List Char) : Bool :=
  (List.range (cs.length + 1)).any fun j =>
    chunkWord (cs.take j) && tldTail (cs.drop j)

/-- The full anchored email pattern of the user schema, split at an at
sign (the local part is over word, dot and hyphen characters only, so at
most one split can succeed). -/
def emailRegexMatch (s : String) : Bool :=
  let cs := s.data
  (List.range cs.length).any fun i =>
    cs.getD i ' ' == '@' && chunkWord (cs.take i) &&
      domainMatch (cs.drop (i + 1))

/-- A stored User document. -/
structure User where
  id : String
  username : String
  email : String
  fullName : String
  bio : String := ""
  profilePicture : String := "https://via.placeholder.com/150"
  isActive : Bool := true
  createdAt : Nat := 0
  updatedAt : Nat := 0
deriving Repr, DecidableEq

/-- Raw POST /user request body. -/
structure UserInput where
  username : Option String := none
  email : Option String := none
  fullName : Option String := none
  bio : Option String := none
  profilePicture : Option String := none
deriving Repr, DecidableEq

/-- Mongoose validation run by `new User(data).save()`: required checks,
the trimmed username within 3 to 20 word characters, the email pattern on
the trimmed lowercased value, the trimmed full name of length at least 2,
the bio within 500 characters. -/
def userValidationErrors (b : UserInput) : List String :=
  (match b.username with
   | none => ["Username is required"]
   | some s =>
     let v := trimStr s
     if v = "" then ["Username is required"]
     else
       (if v.length < 3 then ["Username must be at least 3 characters long"]
        else []) ++
       (if 20 < v.length then ["Username cannot exceed 20 characters"]
        else []) ++
       (if v.data.all isWordChar then []
        else ["Only letters, numbers and underscores allowed"])) ++
  (match b.email with
   | none => ["Email is required"]
   | some s =>
     let v := toLowerStr (trimStr s)
     if v = "" then ["Email is required"]
     else if emailRegexMatch v then [] else ["Invalid email format"]) ++
  (match b.fullName with
   | none => ["Full name is required"]
   | some s =>
     let v := trimStr s
     if v = "" then ["Full name is required"]
     else if v.length < 2 then ["Full name must be at least 2 characters long"]
     else []) ++
  (match b.bio with
   | none => []
   | some s => if 500 < s.length then ["Bio cannot exceed 500 characters"]
               else [])

/-- Schema setters, defaults and the pre-save hook applied by
`new User(data)` before insertion: the generated object id and the clock
are explicit inputs. -/
def mkUser (now : Nat) (newId : String) (b : UserInput) : User :=
  { id := newId
    username := trimStr (b.username.getD "")
    email := toLowerStr (trimStr (b.email.getD ""))
    fullName := trimStr (b.fullName.getD "")
    bio := b.bio.getD ""
    profilePicture := b.profilePicture.getD "https://via.placeholder.com/150"
    isActive := true
    createdAt := now
    updatedAt := now }

/-- The required-field pre-check of POST /user over the raw body. -/
def userMissingFields (b : UserInput) : List String :=
  (if strFalsy b.username then ["username"] else []) ++
  (if strFalsy b.email then ["email"] else []) ++
  (if strFalsy b.fullName then ["fullName"] else [])

/-- POST /user: required pre-check, schema validation, then insertion; the
unique indexes on username and email span all documents, active or not,
and the catch block maps code 11000 to 400 Duplicate Entry naming the
violated field. -/
def createUser (now : Nat) (newId : String) (store : List User)
    (b : UserInput) : ApiResponse User × List User :=
  let missing := userMissingFields b
  if missing ≠ [] then
    ({ status := 400, success := false, error := some "Validation Error",
       details := missing.map (fun f => f ++ " is required") }, store)
  else
    let errs := userValidationErrors b
    if errs ≠ [] then
      ({ status := 400, success := false, error := some "Validation Error",
         details := errs }, store)
    else
      let u := mkUser now newId b
      if store.any (fun v => v.username == u.username) then
        ({ status := 400, success := false, error := some "Duplicate Entry",
           message := some "username already exists" }, store)
      else if store.any (fun v => v.email == u.email) then
        ({ status := 400, success := false, error := some "Duplicate Entry",
           message := some "email already exists" }, store)
      else
        ({ status := 201, success := true,
           message := some "User created successfully", data := some u },
         store ++ [u])

/-- GET /user: `User.find(\x7b isActive: true \x7d)` sorted
newest-created first, with a count; a pure read. -/
def listUsers (store : List User) : ApiResponse (List User) :=
  let us := sortByKeyDesc (fun u => u.createdAt)
    (store.filter (fun u => u.isActive))
  { status := 200, success := true, count := some us.length, data := some us }

/-- GET /user/:username: case-insensitive unanchored regex lookup among
active users; a pure read. -/
def getUserByName (store : List User) (username : String) : ApiResponse User :=
  match store.find? (fun u => ciContains u.username username && u.isActive) with
  | some u => { status := 200, success := true, data := some u }
  | none => { status := 404, success := false,
              message := some "User not found" }

/-- PUT /user/:username request body (username is deleted by the handler
before the query, making the natural key immutable). -/
structure UserUpdate where
  username : Option String := none
  email : Option String := none
  fullName : Option String := none
  bio : Option String := none
  profilePicture : Option String := none
deriving Repr, DecidableEq

/-- With `runValidators: true` on the update path, over the fields present
after the handler deletes username. -/
def userUpdateErrors (b : UserUpdate) : List String :=
  (match b.email with
   | none => []
   | some s =>
     if emailRegexMatch (toLowerStr (trimStr s)) then []
     else ["Invalid email format"]) ++
  (match b.fullName with
   | none => []
   | some s =>
     if (trimStr s).length < 2 then ["Full name must be at least 2 characters long"]
     else []) ++
  (match b.bio with
   | none => []
   | some s => if 500 < s.length then ["Bio cannot exceed 500 characters"]
               else [])

/-- Apply the update document to a matched user; no save hook runs, so
`updatedAt` is left untouched and username is never rewritten. -/
def applyUserUpdate (b : UserUpdate) (u : User) : User :=
  { u with
    email := (match b.email with
              | none => u.email
              | some s => toLowerStr (trimStr s))
    fullName := (match b.fullName with
                 | none => u.fullName
                 | some s => trimStr s)
    bio := b.bio.getD u.bio
    profilePicture := b.profilePicture.getD u.profilePicture }

/-- PUT /user/:username:
`User.findOneAndUpdate(\x7b username, isActive: true \x7d, ...)` with an
exact, case-sensitive key; 404 when no active user matches; a unique-index
violation on a changed email has no catch branch and falls to 500. -/
def updateUser (store : List User) (key : String) (b : UserUpdate) :
    ApiResponse User × List User :=
  let errs := userUpdateErrors b
  if errs ≠ [] then
    ({ status := 400, success := false, error := some "Validation Error",
       details := errs }, store)
  else
    match store.find? (fun u => u.username == key && u.isActive) with
    | none => ({ status := 404, success := false,
                 message := some "User not found" }, store)
    | some m =>
      let m2 := applyUserUpdate b m
      if store.any (fun v => v.email == m2.email && v.username != m.username) then
        ({ status := 500, success := false,
           error := some "Internal Server Error",
           message := some (e11000Message "email") }, store)
      else
        ({ status := 200, success := true,
           message := some "User updated successfully", data := some m2 },
         updateFirstBy (fun u => u.username == key && u.isActive)
           (applyUserUpdate b) store)

/-- DELETE /user/:username:
`User.findOneAndUpdate(\x7b username, isActive: true \x7d,
\x7b isActive: false \x7d)`: flip `isActive` on the first active exact
match, confirmation without the record, 404 otherwise. -/
def deleteUser (store : List User) (key : String) :
    ApiResponse User × List User :=
  if store.any (fun u => u.username == key && u.isActive) then
    ({ status := 200, success := true,
       message := some "User deleted successfully" },
     updateFirstBy (fun u => u.username == key && u.isActive)
       (fun u => { u with isActive := false }) store)
  else
    ({ status := 404, success := false, message := some "User not found" },
     store)

/-- The five operations of the user resource router. -/
inductive UserOp where
  | list
  | get (username : String)
  | create (newId : String) (b : UserInput)
  | update (username : String) (b : UserUpdate)
  | softDelete (username : String)
deriving Repr, DecidableEq

/-- Store transition of one router operation; `listUsers` and
`getUserByName` are pure reads, so the store passes through unchanged. -/
def applyUserOp (now : Nat) (store : List User) : UserOp → List User
  | UserOp.list => store
  | UserOp.get _ => store
  | UserOp.create newId b => (createUser now newId store b).2
  | UserOp.update key b => (updateUser store key b).2
  | UserOp.softDelete key => (deleteUser store key).2

/-- Store after a whole sequence of API operations. -/
def runUserOps (now : Nat) (store : List User) (ops : List UserOp) :
    List User :=
  ops.foldl (applyUserOp now) store

/-! ### Skill: schema (models/Skill.js) and router (routes/skills.js) -/

/-- Value of a hex digit character. -/
def hexCharVal (c : Char) : Nat :=
  if c.isDigit then c.toNat - 48
  else if 'a' ≤ c && c ≤ 'f' then c.toNat - 87
  else c.toNat - 55

/-- Leading run of decimal digits, `none` when there is none (NaN). -/
def takeDecDigits (cs : List Char) : Option Nat :=
  let ds := cs.takeWhile Char.isDigit
  if ds.isEmpty then none
  else some (ds.foldl (fun a c => a * 10 + (c.toNat - 48)) 0)

/-- Leading run of hex digits, `none` when there is none. -/
def takeHexDigits (cs : List Char) : Option Nat :=
  let ds := cs.takeWhile isHexChar
  if ds.isEmpty then none
  else some (ds.foldl (fun a c => a * 16 + hexCharVal c) 0)

/-- Unsigned part of JavaScript parseInt with no radix argument: a 0x or
0X prefix switches to base 16, otherwise the leading decimal digits are
taken and trailing garbage is ignored. -/
def jsParseIntMag : List Char → Option Nat
  | '0' :: 'x' :: rest => takeHexDigits rest
  | '0' :: 'X' :: rest => takeHexDigits rest
  | cs => takeDecDigits cs

/-- JavaScript parseInt on a string: trim, optional sign, then the
unsigned part; `none` models NaN. -/
def jsParseInt (s : String) : Option Int :=
  match (trimStr s).data with
  | '-' :: rest => (jsParseIntMag rest).map (fun n => -(n : Int))
  | '+' :: rest => (jsParseIntMag rest).map (fun n => (n : Int))
  | cs => (jsParseIntMag cs).map (fun n => (n : Int))

/-- A stored Skill document. -/
structure Skill where
  name : String
  category : String
  proficiencyLevel : Int
  description : String := ""
  iconUrl : String := "https://via.placeholder.com/50x50"
  isActive : Bool := true
  createdAt : Nat := 0
  updatedAt : Nat := 0
deriving Repr, DecidableEq

/-- Raw POST /skill request body. -/
structure SkillInput where
  name : Option String := none
  category : Option String := none
  proficiencyLevel : Option Int := none
  description : Option String := none
  iconUrl : Option String := none
deriving Repr, DecidableEq

/-- The category enum of the skill schema (stored lowercased by the
schema setter). -/
def skillCategories : List String :=
  ["frontend", "backend", "database", "devops", "mobile", "design", "other"]

/-- Mongoose validation run by `new Skill(data).save()`. -/
def skillSchemaErrors (b : SkillInput) : List String :=
  (match b.name with
   | none => ["Skill name is required"]
   | some s =>
     let v := trimStr s
     if v = "" then ["Skill name is required"]
     else
       (if v.length < 2 then ["Skill name must be at least 2 characters long"]
        else []) ++
       (if 50 < v.length then ["Skill name cannot exceed 50 characters"]
        else [])) ++
  (match b.category with
   | none => ["Skill category is required"]
   | some s =>
     let v := toLowerStr s
     if v = "" then ["Skill category is required"]
     else if skillCategories.contains v then []
     else [v ++ " is not a valid enum value for path category"]) ++
  (match b.proficiencyLevel with
   | none => ["Proficiency level is required"]
   | some n =>
     if n < 1 || 5 < n then ["Proficiency level must be between 1 and 5"]
     else []) ++
  (match b.description with
   | none => []
   | some s => if 200 < s.length then ["Description cannot exceed 200 characters"]
               else [])

/-- Schema setters, defaults and the pre-save hook applied by
`new Skill(data)` before insertion at clock value `now`. -/
def mkSkill (now : Nat) (b : SkillInput) : Skill :=
  { name := trimStr (b.name.getD "")
    category := toLowerStr (b.category.getD "")
    proficiencyLevel := b.proficiencyLevel.getD 0
    description := b.description.getD ""
    iconUrl := b.iconUrl.getD "https://via.placeholder.com/50x50"
    isActive := true
    createdAt := now
    updatedAt := now }

/-- The required-field pre-check of POST /skill; a numeric zero is falsy
in JavaScript, so proficiencyLevel 0 counts as missing. -/
def skillMissingFields (b : SkillInput) : List String :=
  (if strFalsy b.name then ["name"] else []) ++
  (if strFalsy b.category then ["category"] else []) ++
  (if (match b.proficiencyLevel with
       | none => true
       | some n => n == 0) then ["proficiencyLevel"] else [])

/-- POST /skill: required pre-check, explicit range and category checks,
schema validation, then insertion; the catch block maps code 11000 to 400
Duplicate Entry with a message naming the skill name field, and the unique
index on name spans all documents, active or not. -/
def createSkill (now : Nat) (store : List Skill) (b : SkillInput) :
    ApiResponse Skill × List Skill :=
  let missing := skillMissingFields b
  if missing ≠ [] then
    ({ status := 400, success := false, error := some "Validation Error",
       details := missing.map (fun f => f ++ " is required") }, store)
  else if (b.proficiencyLevel.getD 0) < 1 || 5 < (b.proficiencyLevel.getD 0) then
    ({ status := 400, success := false, error := some "Validation Error",
       details := ["Proficiency level must be between 1 and 5"] }, store)
  else if !(skillCategories.contains (toLowerStr (b.category.getD ""))) then
    ({ status := 400, success := false, error := some "Validation Error",
       details := ["Category must be one of: " ++
                   String.intercalate ", " skillCategories] }, store)
  else
    let errs := skillSchemaErrors b
    if errs ≠ [] then
      ({ status := 400, success := false, error := some "Validation Error",
         details := errs }, store)
    else
      let sk := mkSkill now b
      if store.any (fun v => v.name == sk.name) then
        ({ status := 400, success := false, error := some "Duplicate Entry",
           message := some "Skill name already exists" }, store)
      else
        ({ status := 201, success := true,
           message := some "Skill created successfully", data := some sk },
         store ++ [sk])

/-- The category branch of the GET /skill filter: a truthy query value is
lowercased and matched exactly. -/
def skillCategoryFilter : Option String → Option String
  | some c => if c ≠ "" then some (toLowerStr c) else none
  | none => none

/-- The proficiencyLevel branch of the GET /skill filter: a truthy query
string is parsed with parseInt; the filter applies only when the parsed
value lies in 1..5, otherwise it is silently dropped. -/
def skillLevelFilter : Option String → Option Int
  | some p =>
    if p ≠ "" then
      match jsParseInt p with
      | some l => if 1 ≤ l && l ≤ 5 then some l else none
      | none => none
    else none
  | none => none

/-- GET /skill: active skills matching the two optional filters, sorted
newest-created first; truthy raw filter values are echoed back. -/
def listSkills (store : List Skill) (category : Option String)
    (proficiencyLevel : Option String) : ApiResponse (List Skill) :=
  let catF := skillCategoryFilter category
  let lvlF := skillLevelFilter proficiencyLevel
  let matched := store.filter fun sk =>
    sk.isActive &&
    (match catF with | some c => sk.category == c | none => true) &&
    (match lvlF with | some l => sk.proficiencyLevel == l | none => true)
  let sorted := sortByKeyDesc (fun sk => sk.createdAt) matched
  { status := 200, success := true, count := some sorted.length,
    data := some sorted,
    filterEcho :=
      if category.getD "" ≠ "" || proficiencyLevel.getD "" ≠ "" then
        some (category, proficiencyLevel)
      else none }

/-- GET /skill/:name: case-insensitive unanchored regex lookup among
active skills; a pure read. -/
def getSkillByName (store : List Skill) (name : String) : ApiResponse Skill :=
  match store.find? (fun sk => ciContains sk.name name && sk.isActive) with
  | some sk => { status := 200, success := true, data := some sk }
  | none => { status := 404, success := false,
              message := some "Skill not found" }

/-- PUT /skill/:name request body (name is deleted by the handler before
the query, making the natural key immutable). -/
structure SkillUpdate where
  name : Option String := none
  category : Option String := none
  proficiencyLevel : Option Int := none
  description : Option String := none
  iconUrl : Option String := none
deriving Repr, DecidableEq

/-- With `runValidators: true` on the update path, over the fields present
after the handler deletes name. -/
def skillUpdateErrors (b : SkillUpdate) : List String :=
  (match b.category with
   | none => []
   | some s =>
     let v := toLowerStr s
     if skillCategories.contains v then []
     else [v ++ " is not a valid enum value for path category"]) ++
  (match b.proficiencyLevel with
   | none => []
   | some n =>
     if n < 1 || 5 < n then ["Proficiency level must be between 1 and 5"]
     else []) ++
  (match b.description with
   | none => []
   | some s => if 200 < s.length then ["Description cannot exceed 200 characters"]
               else [])

/-- Apply the update document to a matched skill; no save hook runs, so
`updatedAt` is left untouched and name is never rewritten. -/
def applySkillUpdate (b : SkillUpdate) (sk : Skill) : Skill :=
  { sk with
    category := (match b.category with
                 | none => sk.category
                 | some c => toLowerStr c)
    proficiencyLevel := b.proficiencyLevel.getD sk.proficiencyLevel
    description := b.description.getD sk.description
    iconUrl := b.iconUrl.getD sk.iconUrl }

/-- PUT /skill/:name: explicit range and category pre-checks, then
`Skill.findOneAndUpdate` whose query matches the name by an anchored
case-insensitive regex among active skills; 404 when none matches. -/
def updateSkill (store : List Skill) (key : String) (b : SkillUpdate) :
    ApiResponse Skill × List Skill :=
  if (match b.proficiencyLevel with
      | some n => n < 1 || 5 < n
      | none => false) then
    ({ status := 400, success := false, error := some "Validation Error",
       details := ["Proficiency level must be between 1 and 5"] }, store)
  else if (match b.category with
           | some c => c ≠ "" && !(skillCategories.contains (toLowerStr c))
           | none => false) then
    ({ status := 400, success := false, error := some "Validation Error",
       details := ["Category must be one of: " ++
                   String.intercalate ", " skillCategories] }, store)
  else
    let errs := skillUpdateErrors b
    if errs ≠ [] then
      ({ status := 400, success := false, error := some "Validation Error",
         details := errs }, store)
    else
      match store.find? (fun sk => ciEq sk.name key && sk.isActive) with
      | none => ({ status := 404, success := false,
                   message := some "Skill not found" }, store)
      | some m =>
        ({ status := 200, success := true,
           message := some "Skill updated successfully",
           data := some (applySkillUpdate b m) },
         updateFirstBy (fun sk => ciEq sk.name key && sk.isActive)
           (applySkillUpdate b) store)

/-- DELETE /skill/:name: `Skill.findOneAndUpdate` with the same anchored
case-insensitive regex query, flipping `isActive` on the first active
match; confirmation without the record, 404 otherwise. -/
def deleteSkill (store : List Skill) (key : String) :
    ApiResponse Skill × List Skill :=
  if store.any (fun sk => ciEq sk.name key && sk.isActive) then
    ({ status := 200, success := true,
       message := some "Skill deleted successfully" },
     updateFirstBy (fun sk => ciEq sk.name key && sk.isActive)
       (fun sk => { sk with isActive := false }) store)
  else
    ({ status := 404, success := false, message := some "Skill not found" },
     store)

/-! ### Project: schema (models/Project.js) and POST handler
(routes/projects.js) -/

/-- A stored Project document. -/
structure Project where
  id : String
  title : String
  description : String
  technologies : List String
  githubUrl : Option String := none
  liveUrl : Option String := none
  imageUrl : String := "https://via.placeholder.com/400x300"
  status : String := "planning"
  userId : String
  isActive : Bool := true
  createdAt : Nat := 0
  updatedAt : Nat := 0
deriving Repr, DecidableEq

/-- Raw POST /project request body. -/
structure ProjectInput where
  title : Option String := none
  description : Option String := none
  technologies : Option (List String) := none
  githubUrl : Option String := none
  liveUrl : Option String := none
  imageUrl : Option String := none
  status : Option String := none
  userId : Option String := none
deriving Repr, DecidableEq

/-- The status enum of the project schema. -/
def projectStatuses : List String :=
  ["planning", "in-progress", "completed", "on-hold"]

/-- The githubUrl pattern: an https URL on the github.com host. -/
def githubUrlOk (s : String) : Bool :=
  "https://github.com/".data.isPrefixOf s.data

/-- The liveUrl pattern: any http or https URL. -/
def liveUrlOk (s : String) : Bool :=
  "http://".data.isPrefixOf s.data || "https://".data.isPrefixOf s.data

/-- Mongoose validation run by `new Project(data).save()`; the match
validators skip absent and empty values, the status enum has a default. -/
def projectSchemaErrors (b : ProjectInput) : List String :=
  (match b.title with
   | none => ["Project title is required"]
   | some s =>
     let v := trimStr s
     if v = "" then ["Project title is required"]
     else
       (if v.length < 3 then ["Title must be at least 3 characters long"]
        else []) ++
       (if 100 < v.length then ["Title cannot exceed 100 characters"]
        else [])) ++
  (match b.description with
   | none => ["Project description is required"]
   | some s =>
     if s = "" then ["Project description is required"]
     else
       (if s.length < 10 then ["Description must be at least 10 characters long"]
        else []) ++
       (if 1000 < s.length then ["Description cannot exceed 1000 characters"]
        else [])) ++
  (match b.githubUrl with
   | none => []
   | some s =>
     if s = "" then []
     else if githubUrlOk s then [] else ["Invalid GitHub URL format"]) ++
  (match b.liveUrl with
   | none => []
   | some s =>
     if s = "" then []
     else if liveUrlOk s then [] else ["Invalid URL format"]) ++
  (match b.status with
   | none => []
   | some s =>
     if s = "" then []
     else if projectStatuses.contains s then []
     else [s ++ " is not a valid enum value for path status"])

/-- Schema setters, defaults and the pre-save hook applied by
`new Project(data)` before insertion. -/
def mkProject (now : Nat) (newId : String) (b : ProjectInput) : Project :=
  { id := newId
    title := trimStr (b.title.getD "")
    description := b.description.getD ""
    technologies := (b.technologies.getD []).map trimStr
    githubUrl := b.githubUrl
    liveUrl := b.liveUrl
    imageUrl := b.imageUrl.getD "https://via.placeholder.com/400x300"
    status := (match b.status with
               | none => "planning"
               | some s => if s = "" then "planning" else s)
    userId := b.userId.getD ""
    isActive := true
    createdAt := now
    updatedAt := now }

/-- The required-field pre-check of POST /project; a JavaScript array is
truthy even when empty, so only an absent technologies key is missing. -/
def projectMissingFields (b : ProjectInput) : List String :=
  (if strFalsy b.title then ["title"] else []) ++
  (if strFalsy b.description then ["description"] else []) ++
  (if b.technologies.isNone then ["technologies"] else []) ++
  (if strFalsy b.userId then ["userId"] else [])

/-- POST /project (after `authenticate`): required pre-check, then the
userId is checked to be a structurally valid object id (failure is a 400
Validation Error, not the Invalid ID format kind), then
`User.findById(userId)` — with no isActive condition, so a soft-deleted
user passes — must find a record, then schema validation and insertion. -/
def createProject (now : Nat) (newId : String) (users : List User)
    (store : List Project) (b : ProjectInput) :
    ApiResponse Project × List Project :=
  let missing := projectMissingFields b
  if missing ≠ [] then
    ({ status := 400, success := false, error := some "Validation Error",
       details := missing.map (fun f => f ++ " is required") }, store)
  else
    let uid := b.userId.getD ""
    if !(ObjectId.isValid uid) then
      ({ status := 400, success := false, error := some "Validation Error",
         details := ["Invalid user ID format"] }, store)
    else if !(users.any (fun u => u.id == uid)) then
      ({ status := 400, success := false, error := some "Validation Error",
         details := ["User not found"] }, store)
    else
      let errs := projectSchemaErrors b
      if errs ≠ [] then
        ({ status := 400, success := false, error := some "Validation Error",
           details := errs }, store)
      else
        let p := mkProject now newId b
        ({ status := 201, success := true,
           message := some "Project created successfully", data := some p },
         store ++ [p])

/-! ### Token gate (middleware/auth.js) and login (routes/auth.js) -/

/-- Hex digit character for a value below 16, lowercase as produced by
Buffer.toString(hex). -/
def hexDigitChar (n : Nat) : Char :=
  if n < 10 then Char.ofNat (48 + n) else Char.ofNat (87 + n)

/-- Two-character hex rendering of one byte. -/
def byteHex (b : Nat) : List Char := [hexDigitChar (b / 16), hexDigitChar (b % 16)]

/-- Embedding of `crypto.randomBytes(32).toString(hex)`: the 32 random bytes are an
explicit input of the embedding. -/
def bytesToHex (bs : List Nat) : String := String.mk (bs.map byteHex).flatten

/-- The `generateToken` function: hex-encode the random bytes, add the token to the
module-level validTokens set, return it. -/
def generateToken (randomBytes : List Nat) (validTokens : List String) :
    String × List String :=
  let t := bytesToHex randomBytes
  (t, if validTokens.contains t then validTokens else t :: validTokens)

/-- Membership test of the `authenticate` middleware:
`validTokens.has(token)`. -/
def checkToken (t : String) (validTokens : List String) : Bool :=
  validTokens.contains t

/-- The `invalidateToken` function: `validTokens.delete(token)`, idempotent. -/
def invalidateToken (t : String) (validTokens : List String) : List String :=
  validTokens.filter (fun v => v ≠ t)

/-- Raw POST /auth/login request body. -/
structure LoginBody where
  username : Option String := none
  password : Option String := none
deriving Repr, DecidableEq

/-- POST /auth/login: strict equality against the single fixed pair; on
match issue a fresh token; on mismatch one shared 401 branch answers
Invalid credentials together with a hint spelling out the accepted pair. -/
def login (b : LoginBody) (randomBytes : List Nat)
    (validTokens : List String) : ApiResponse Unit × List String :=
  if b.username == some "admin" && b.password == some "password123" then
    let issued := generateToken randomBytes validTokens
    ({ status := 200, success := true, message := some "Login successful",
       token := some issued.1,
       instructions :=
         some "Use this token in Authorization header as: Bearer [token]" },
     issued.2)
  else
    ({ status := 401, success := false, error := some "Invalid credentials",
       hint := some "Use username: admin, password: password123" },
     validTokens)

end Portfolio

namespace Portfolio

/-! ### Shared helper lemmas -/

/-- Function `updateFirstBy` leaves every record equal or rewritten by `f`,
position by position. -/
theorem updateFirstBy_forall2 {A : Type} (p : A → Bool) (f : A → A) :
    ∀ l : List A, List.Forall₂ (fun a b => b = a ∨ b = f a) l (updateFirstBy p f l) := by
  intro l
  induction l with
  | nil => exact List.Forall₂.nil
  | cons x xs ih =>
    by_cases h : p x
    · rw [updateFirstBy, if_pos h]
      exact List.Forall₂.cons (Or.inr rfl)
        ((List.forall₂_same).2 (fun a _ => Or.inl rfl))
    · rw [updateFirstBy, if_neg h]
      exact List.Forall₂.cons (Or.inl rfl) ih

/-- Function `updateFirstBy` preserves any projection that `f` preserves. -/
theorem updateFirstBy_map {A B : Type} (p : A → Bool) (f : A → A) (g : A → B)
    (hg : ∀ x, g (f x) = g x) :
    ∀ l : List A, (updateFirstBy p f l).map g = l.map g := by
  intro l
  induction l with
  | nil => rfl
  | cons x xs ih =>
    by_cases h : p x
    · rw [updateFirstBy, if_pos h]; simp [hg]
    · rw [updateFirstBy, if_neg h]; simp [ih]

/-- After soft-deleting the first active theme with a given name in a
store that holds at most one theme of that name, no active theme of that
name remains. -/
theorem softDeleteFirst_no_active (key : String) :
    ∀ store : List Theme,
      store.countP (fun t => t.themeName == key) ≤ 1 →
      (updateFirstBy (fun t => t.themeName == key && t.isActive)
        (fun t => { t with isActive := false }) store).any
        (fun t => t.themeName == key && t.isActive) = false := by
  intro store
  induction store with
  | nil => intro _; rfl
  | cons t ts ih =>
    intro hcount
    by_cases h : (t.themeName == key && t.isActive) = true
    · rw [updateFirstBy, if_pos h]
      have h' := h
      simp only [Bool.and_eq_true] at h'
      have hname : (t.themeName == key) = true := h'.1
      have hts : ts.countP (fun t => t.themeName == key) = 0 := by
        rw [List.countP_cons] at hcount
        simp only [hname, if_true] at hcount
        omega
      have hall : ∀ x ∈ ts, (x.themeName == key && x.isActive) = false := by
        intro x hx
        have hx0 := List.countP_eq_zero.mp hts x hx
        have hx1 : (x.themeName == key) = false := by
          cases hc : (x.themeName == key)
          · rfl
          · exact absurd hc hx0
        simp [hx1]
      rw [List.any_eq_false]
      intro x hx
      rcases List.mem_cons.mp hx with hx1 | hx2
      · subst hx1; simp
      · simp [hall x hx2]
    · rw [updateFirstBy, if_neg h]
      have hcount2 : ts.countP (fun t => t.themeName == key) ≤ 1 := by
        rw [List.countP_cons] at hcount
        omega
      have hb : (t.themeName == key && t.isActive) = false := by
        cases hc : (t.themeName == key && t.isActive)
        · rfl
        · exact absurd hc h
      simp only [List.any_cons, hb, Bool.false_or]
      exact ih hcount2

/-- Hex digit characters are distinct for distinct values below 16. -/
theorem hexDigitChar_inj :
    ∀ m, m < 16 → ∀ n, n < 16 → hexDigitChar m = hexDigitChar n → m = n := by
  decide

/-- Two-character hex renderings are distinct for distinct bytes. -/
theorem byteHex_inj {m n : Nat} (hm : m < 256) (hn : n < 256)
    (h : byteHex m = byteHex n) : m = n := by
  simp only [byteHex, List.cons.injEq, and_true] at h
  obtain ⟨h1, h2⟩ := h
  have e1 := hexDigitChar_inj (m / 16) (by omega) (n / 16) (by omega) h1
  have e2 := hexDigitChar_inj (m % 16) (by omega) (n % 16) (by omega) h2
  omega

/-- Hex encoding is injective on byte sequences. -/
theorem bytesToHex_inj :
    ∀ xs ys : List Nat, (∀ b ∈ xs, b < 256) → (∀ b ∈ ys, b < 256) →
      bytesToHex xs = bytesToHex ys → xs = ys := by
  intro xs
  induction xs with
  | nil =>
    intro ys _ _ h
    cases ys with
    | nil => rfl
    | cons y ys =>
      have hd : (([] : List Nat).map byteHex).flatten =
          ((y :: ys).map byteHex).flatten := congrArg String.data h
      simp [byteHex] at hd
  | cons x xs ih =>
    intro ys hx hy h
    cases ys with
    | nil =>
      have hd : ((x :: xs).map byteHex).flatten =
          (([] : List Nat).map byteHex).flatten := congrArg String.data h
      simp [byteHex] at hd
    | cons y ys =>
      have hd : ((x :: xs).map byteHex).flatten =
          ((y :: ys).map byteHex).flatten := congrArg String.data h
      simp only [List.map_cons, List.flatten_cons, byteHex,
        List.cons_append, List.nil_append, List.cons.injEq] at hd
      obtain ⟨h1, h2, h3⟩ := hd
      have hx1 : x < 256 := hx x (by simp)
      have hy1 : y < 256 := hy y (by simp)
      have hxy : x = y := by
        have e1 := hexDigitChar_inj (x / 16) (by omega) (y / 16) (by omega) h1
        have e2 := hexDigitChar_inj (x % 16) (by omega) (y % 16) (by omega) h2
        omega
      subst hxy
      have tails : xs = ys :=
        ih ys (fun b hb => hx b (by simp [hb])) (fun b hb => hy b (by simp [hb]))
          (congrArg String.mk h3)
      rw [tails]

/-- The flattened hex rendering has two characters per byte. -/
theorem byteHexFlatten_length :
    ∀ xs : List Nat, ((xs.map byteHex).flatten).length = 2 * xs.length := by
  intro xs
  induction xs with
  | nil => rfl
  | cons x xs ih =>
    simp only [List.map_cons, List.flatten_cons, byteHex, List.cons_append,
      List.nil_append, List.length_cons, ih]
    omega

/-- The hex encoding of a byte sequence has two characters per byte. -/
theorem bytesToHex_length (xs : List Nat) :
    (bytesToHex xs).length = 2 * xs.length :=
  byteHexFlatten_length xs

/-- A freshly generated token is accepted by `checkToken` against the
successor token set. -/
theorem generateToken_check (r : List Nat) (vt : List String) :
    checkToken (generateToken r vt).1 (generateToken r vt).2 = true := by
  simp only [generateToken, checkToken]
  by_cases h : vt.contains (bytesToHex r) = true
  · simp only [if_pos h]; exact h
  · simp only [if_neg h]; simp

/-- Function `generateToken` only grows the valid set. -/
theorem generateToken_mono (r : List Nat) (vt : List String) (t : String)
    (h : checkToken t vt = true) :
    checkToken t (generateToken r vt).2 = true := by
  simp only [checkToken] at h
  simp only [generateToken, checkToken]
  by_cases hc : vt.contains (bytesToHex r) = true
  · simp only [if_pos hc]; exact h
  · simp only [if_neg hc]
    have hm : t ∈ vt := by simpa using h
    simp [hm]

/-- C3: the error mapper dispatches in the fixed order
validation → duplicate → cast → 500, and a `CastError` (the shape a
malformed caller-supplied identifier surfaces as) is always classified as
400 `Invalid ID format`, never 500; the `validateObjectId` middleware
likewise answers 400 `Invalid ID format` for every malformed id. -/
theorem c3_error_mapper_order (e : JsError) (id : String) :
    (e.name = "ValidationError" →
      handleError e =
        { status := 400, success := false,
          error := some "Validation Error", details := e.errorMessages }) ∧
    (e.name ≠ "ValidationError" → e.code = some 11000 →
      handleError e =
        { status := 400, success := false,
          error := some "Duplicate Entry",
          message := some (e.keyValueKeys.headD "undefined" ++ " already exists") }) ∧
    (e.name ≠ "ValidationError" → e.code ≠ some 11000 → e.name = "CastError" →
      handleError e =
        { status := 400, success := false,
          error := some "Invalid ID format" }) ∧
    (e.name ≠ "ValidationError" → e.name ≠ "CastError" → e.code ≠ some 11000 →
      (handleError e).status = 500 ∧
      (handleError e).error = some "Internal Server Error") ∧
    (e.name = "CastError" →
      (handleError e).status = 400 ∧ (handleError e).status ≠ 500) ∧
    (id ≠ "" → ObjectId.isValid id = false →
      validateObjectId id =
        some { status := 400, success := false,
               error := some "Invalid ID format" }) := by
  unfold handleError validateObjectId
  refine ⟨?_, ?_, ?_, ?_, ?_, ?_⟩
  · intro h; simp [h]
  · intro h hc; simp [h, hc]
  · intro h hc hn; simp [h, hc, hn]
  · intro h hn hc; simp [h, hc, hn]
  · intro h
    constructor
    · by_cases hv : e.name = "ValidationError"
      · rw [hv] at h; simp at h
      · by_cases hc : e.code = some 11000 <;> simp [hv, hc, h]
    · by_cases hv : e.name = "ValidationError"
      · rw [hv] at h; simp at h
      · by_cases hc : e.code = some 11000 <;> simp [hv, hc, h]
  · intro hne hv
    simp [hne, hv]

/-- Closed instance of `c3_error_mapper_order`: a Mongoose `CastError`
(malformed identifier) maps to 400, and `validateObjectId` rejects the
test-suite input `invalid-id` with 400 `Invalid ID format`. -/
theorem c3_error_mapper_order_witness :
    (handleError { name := "CastError" }).status = 400 ∧
    (handleError { name := "CastError" }).status ≠ 500 ∧
    validateObjectId "invalid-id" =
      some { status := 400, success := false,
             error := some "Invalid ID format" } := by
  have h := c3_error_mapper_order { name := "CastError" } "invalid-id"
  refine ⟨(h.2.2.2.2.1 rfl).1, (h.2.2.2.2.1 rfl).2, h.2.2.2.2.2 (by decide) (by decide)⟩

/-- C1 (amended): when a create request reaches the insert and the
persistence layer reports a uniqueness violation — including a conflict
with a soft-deleted record, since the unique indexes span inactive
documents — the User and Skill routers answer 400 Duplicate Entry with a
message naming the violated field, because their catch blocks test for
code 11000; the Theme router has no duplicate branch, so the same
condition there answers 500 with the raw driver message, not 400
Duplicate Entry (the claim fails for themes as stated). -/
theorem c1_duplicate_mapping
    (now : Nat) (newId : String)
    (us : List User) (ub : UserInput)
    (ss : List Skill) (sb : SkillInput)
    (ts : List Theme) (tb : ThemeInput)
    (hu1 : userMissingFields ub = [])
    (hu2 : userValidationErrors ub = [])
    (hu3 : us.any (fun v => v.username == (mkUser now newId ub).username) = true)
    (hs1 : skillMissingFields sb = [])
    (hs2 : 1 ≤ sb.proficiencyLevel.getD 0 ∧ sb.proficiencyLevel.getD 0 ≤ 5)
    (hs3 : skillCategories.contains (toLowerStr (sb.category.getD "")) = true)
    (hs4 : skillSchemaErrors sb = [])
    (hs5 : ss.any (fun v => v.name == (mkSkill now sb).name) = true)
    (ht1 : themeValidationErrors tb = [])
    (ht2 : hasThemeName ts (mkTheme now tb).themeName = true) :
    ((createUser now newId us ub).1 =
      { status := 400, success := false, error := some "Duplicate Entry",
        message := some "username already exists" } ∧
     (createUser now newId us ub).2 = us) ∧
    ((createSkill now ss sb).1 =
      { status := 400, success := false, error := some "Duplicate Entry",
        message := some "Skill name already exists" } ∧
     (createSkill now ss sb).2 = ss) ∧
    ((createTheme now ts tb).1.status = 500 ∧
     (createTheme now ts tb).1.error = some (e11000Message "themeName") ∧
     (createTheme now ts tb).1.error ≠ some "Duplicate Entry" ∧
     (createTheme now ts tb).2 = ts) := by
  have hrange : ¬(sb.proficiencyLevel.getD 0 < 1 ∨ 5 < sb.proficiencyLevel.getD 0) := by
    omega
  refine ⟨?_, ?_, ?_⟩
  · constructor <;> simp [createUser, hu1, hu2, hu3]
  · have hs3m : toLowerStr (sb.category.getD "") ∈ skillCategories := by
      simpa using hs3
    constructor <;> simp [createSkill, hs1, hs3m, hs4, hs5, hrange]
  · refine ⟨?_, ?_, ?_, ?_⟩ <;> simp [createTheme, ht1, ht2, e11000Message]

/-- Closed counterexample for C1 as stated: a valid theme create request
whose name collides with a soft-deleted theme answers 500, not 400
Duplicate Entry. -/
theorem c1_counterexample :
    (createTheme 2
      [{ themeName := "Dark Mode", primaryColor := "#FF5733",
         secondaryColor := "#333333", fontFamily := "Arial",
         isActive := false, createdAt := 1, updatedAt := 1 }]
      { themeName := some "Dark Mode", primaryColor := some "#00FF00",
        secondaryColor := some "#000000", fontFamily := some "Roboto" }).1.status = 500 ∧
    (createTheme 2
      [{ themeName := "Dark Mode", primaryColor := "#FF5733",
         secondaryColor := "#333333", fontFamily := "Arial",
         isActive := false, createdAt := 1, updatedAt := 1 }]
      { themeName := some "Dark Mode", primaryColor := some "#00FF00",
        secondaryColor := some "#000000", fontFamily := some "Roboto" }).1.status ≠ 400 ∧
    (createTheme 2
      [{ themeName := "Dark Mode", primaryColor := "#FF5733",
         secondaryColor := "#333333", fontFamily := "Arial",
         isActive := false, createdAt := 1, updatedAt := 1 }]
      { themeName := some "Dark Mode", primaryColor := some "#00FF00",
        secondaryColor := some "#000000", fontFamily := some "Roboto" }).1.error ≠
      some "Duplicate Entry" := by
  decide

/-- Closed instance of `c1_duplicate_mapping` at concrete stores holding
soft-deleted conflicting records. -/
theorem c1_duplicate_mapping_witness :
    (createUser 7 "u2"
      [{ id := "u1", username := "john_doe", email := "old@example.com",
         fullName := "Old Name", isActive := false }]
      { username := some "john_doe", email := some "john@example.com",
        fullName := some "John Doe" }).1.status = 400 ∧
    (createUser 7 "u2"
      [{ id := "u1", username := "john_doe", email := "old@example.com",
         fullName := "Old Name", isActive := false }]
      { username := some "john_doe", email := some "john@example.com",
        fullName := some "John Doe" }).1.message = some "username already exists" ∧
    (createSkill 7
      [{ name := "Go", category := "backend", proficiencyLevel := 3,
         isActive := false }]
      { name := some "Go", category := some "backend",
        proficiencyLevel := some 4 }).1.error = some "Duplicate Entry" ∧
    (createTheme 7
      [{ themeName := "Dark Mode", primaryColor := "#FF5733",
         secondaryColor := "#333333", fontFamily := "Arial",
         isActive := false, createdAt := 1, updatedAt := 1 }]
      { themeName := some "Dark Mode", primaryColor := some "#00FF00",
        secondaryColor := some "#000000",
        fontFamily := some "Roboto" }).1.status = 500 := by
  have h := c1_duplicate_mapping 7 "u2"
    [{ id := "u1", username := "john_doe", email := "old@example.com",
       fullName := "Old Name", isActive := false }]
    { username := some "john_doe", email := some "john@example.com",
      fullName := some "John Doe" }
    [{ name := "Go", category := "backend", proficiencyLevel := 3,
       isActive := false }]
    { name := some "Go", category := some "backend",
      proficiencyLevel := some 4 }
    [{ themeName := "Dark Mode", primaryColor := "#FF5733",
       secondaryColor := "#333333", fontFamily := "Arial",
       isActive := false, createdAt := 1, updatedAt := 1 }]
    { themeName := some "Dark Mode", primaryColor := some "#00FF00",
      secondaryColor := some "#000000", fontFamily := some "Roboto" }
    (by decide) (by decide) (by decide) (by decide) (by decide) (by decide)
    (by decide) (by decide) (by decide) (by decide)
  exact ⟨by rw [h.1.1], by rw [h.1.1], by rw [h.2.1.1], h.2.2.1⟩

/-- C2 (amended): a soft-delete whose exact key matches an active theme
flips that record to `isActive = false` while leaving its key and its
`updatedAt` timestamp untouched (the update document sets only `isActive`
and no save hook runs, so `updatedAt` is NOT refreshed), answers a bare
confirmation without the record, and — when the store holds at most one
record of that name, the unique-index invariant — a second soft-delete of
the same key answers 404; when no active record matches, the answer is
404 with the store unchanged. -/
theorem c2_soft_delete (now : Nat) (store : List Theme) (key : String) :
    (store.any (fun t => t.themeName == key && t.isActive) = true →
      (deleteTheme now store key).1 =
        { status := 200, success := true,
          message := some "Theme deleted successfully" } ∧
      List.Forall₂
        (fun a b => (b = a ∨ b = { a with isActive := false }) ∧
          b.updatedAt = a.updatedAt ∧ b.themeName = a.themeName)
        store (deleteTheme now store key).2 ∧
      (store.countP (fun t => t.themeName == key) ≤ 1 →
        (deleteTheme now (deleteTheme now store key).2 key).1 =
          { status := 404, success := false,
            message := some "Theme not found" })) ∧
    (store.any (fun t => t.themeName == key && t.isActive) = false →
      deleteTheme now store key =
        ({ status := 404, success := false,
           message := some "Theme not found" }, store)) := by
  constructor
  · intro hfound
    refine ⟨?_, ?_, ?_⟩
    · simp [deleteTheme, hfound]
    · have hstore : (deleteTheme now store key).2 =
          updateFirstBy (fun t => t.themeName == key && t.isActive)
            (fun t => { t with isActive := false }) store := by
        simp [deleteTheme, hfound]
      rw [hstore]
      refine (updateFirstBy_forall2 _ _ store).imp ?_
      intro a b hab
      refine ⟨hab, ?_, ?_⟩ <;> rcases hab with h | h <;> subst h <;> rfl
    · intro huniq
      have hstore : (deleteTheme now store key).2 =
          updateFirstBy (fun t => t.themeName == key && t.isActive)
            (fun t => { t with isActive := false }) store := by
        simp [deleteTheme, hfound]
      rw [hstore]
      have hnone := softDeleteFirst_no_active key store huniq
      simp [deleteTheme, hnone]
  · intro hnot
    simp [deleteTheme, hnot]

/-- Closed counterexample for C2 as stated: soft-deleting the theme named
dark at clock value 10 leaves its `updatedAt` at the old value 5 instead
of refreshing it. -/
theorem c2_counterexample :
    (deleteTheme 10
      [{ themeName := "dark", primaryColor := "#FFFFFF",
         secondaryColor := "#000000", fontFamily := "Arial",
         isActive := true, createdAt := 5, updatedAt := 5 }] "dark").1.status = 200 ∧
    (deleteTheme 10
      [{ themeName := "dark", primaryColor := "#FFFFFF",
         secondaryColor := "#000000", fontFamily := "Arial",
         isActive := true, createdAt := 5, updatedAt := 5 }] "dark").2 =
      [{ themeName := "dark", primaryColor := "#FFFFFF",
         secondaryColor := "#000000", fontFamily := "Arial",
         isActive := false, createdAt := 5, updatedAt := 5 }] ∧
    (5 : Nat) ≠ 10 := by
  decide

/-- Closed instance of `c2_soft_delete`: deleting an active theme answers
the confirmation and a second delete of the same key answers 404. -/
theorem c2_soft_delete_witness :
    (deleteTheme 9
      [{ themeName := "dark", primaryColor := "#FFFFFF",
         secondaryColor := "#000000", fontFamily := "Arial",
         isActive := true, createdAt := 3, updatedAt := 3 }] "dark").1 =
      { status := 200, success := true,
        message := some "Theme deleted successfully" } ∧
    (deleteTheme 9
      (deleteTheme 9
        [{ themeName := "dark", primaryColor := "#FFFFFF",
           secondaryColor := "#000000", fontFamily := "Arial",
           isActive := true, createdAt := 3, updatedAt := 3 }] "dark").2 "dark").1 =
      { status := 404, success := false,
        message := some "Theme not found" } := by
  have h := (c2_soft_delete 9
    [{ themeName := "dark", primaryColor := "#FFFFFF",
       secondaryColor := "#000000", fontFamily := "Arial",
       isActive := true, createdAt := 3, updatedAt := 3 }] "dark").1 (by decide)
  exact ⟨h.1, h.2.2 (by decide)⟩

/-- C4: project creation checks the supplied userId in two stages before
the insert — structural validity, then existence of a User document with
no isActive condition (so a soft-deleted user passes) — and both failure
stages answer 400 Validation Error, never the Invalid ID format kind;
with an existing user (active or not) and a valid body the insert
happens. -/
theorem c4_project_userid_check (now : Nat) (newId : String)
    (users : List User) (store : List Project) (b : ProjectInput) :
    (projectMissingFields b = [] →
      ObjectId.isValid (b.userId.getD "") = false →
      (createProject now newId users store b).1 =
        { status := 400, success := false, error := some "Validation Error",
          details := ["Invalid user ID format"] } ∧
      (createProject now newId users store b).1.error ≠ some "Invalid ID format" ∧
      (createProject now newId users store b).2 = store) ∧
    (projectMissingFields b = [] →
      ObjectId.isValid (b.userId.getD "") = true →
      users.any (fun u => u.id == b.userId.getD "") = false →
      (createProject now newId users store b).1 =
        { status := 400, success := false, error := some "Validation Error",
          details := ["User not found"] } ∧
      (createProject now newId users store b).1.error ≠ some "Invalid ID format" ∧
      (createProject now newId users store b).2 = store) ∧
    (projectMissingFields b = [] →
      ObjectId.isValid (b.userId.getD "") = true →
      users.any (fun u => u.id == b.userId.getD "") = true →
      projectSchemaErrors b = [] →
      (createProject now newId users store b).1.status = 201 ∧
      (createProject now newId users store b).2 =
        store ++ [mkProject now newId b]) := by
  refine ⟨?_, ?_, ?_⟩
  · intro h1 h2
    refine ⟨?_, ?_, ?_⟩ <;> simp [createProject, h1, h2]
  · intro h1 h2 h3
    refine ⟨?_, ?_, ?_⟩ <;> simp [createProject, h1, h2, h3]
  · intro h1 h2 h3 h4
    constructor <;> simp [createProject, h1, h2, h3, h4]

/-- Closed instance of `c4_project_userid_check`: a malformed userId and a
well-formed but unknown userId both answer 400 Validation Error, and a
userId resolving to a soft-deleted user is accepted with 201. -/
theorem c4_project_userid_check_witness :
    (createProject 5 "p1"
      [{ id := "507f1f77bcf86cd799439011", username := "ana",
         email := "ana@example.com", fullName := "Ana A",
         isActive := false }] []
      { title := some "Portfolio Website",
        description := some "A modern portfolio website",
        technologies := some ["React"],
        userId := some "invalid-id" }).1.details = ["Invalid user ID format"] ∧
    (createProject 5 "p1"
      [{ id := "507f1f77bcf86cd799439011", username := "ana",
         email := "ana@example.com", fullName := "Ana A",
         isActive := false }] []
      { title := some "Portfolio Website",
        description := some "A modern portfolio website",
        technologies := some ["React"],
        userId := some "aaaaaaaaaaaaaaaaaaaaaaaa" }).1.details = ["User not found"] ∧
    (createProject 5 "p1"
      [{ id := "507f1f77bcf86cd799439011", username := "ana",
         email := "ana@example.com", fullName := "Ana A",
         isActive := false }] []
      { title := some "Portfolio Website",
        description := some "A modern portfolio website",
        technologies := some ["React"],
        userId := some "507f1f77bcf86cd799439011" }).1.status = 201 := by
  have h1 := (c4_project_userid_check 5 "p1"
    [{ id := "507f1f77bcf86cd799439011", username := "ana",
       email := "ana@example.com", fullName := "Ana A", isActive := false }] []
    { title := some "Portfolio Website",
      description := some "A modern portfolio website",
      technologies := some ["React"],
      userId := some "invalid-id" }).1 (by decide) (by decide)
  have h2 := (c4_project_userid_check 5 "p1"
    [{ id := "507f1f77bcf86cd799439011", username := "ana",
       email := "ana@example.com", fullName := "Ana A", isActive := false }] []
    { title := some "Portfolio Website",
      description := some "A modern portfolio website",
      technologies := some ["React"],
      userId := some "aaaaaaaaaaaaaaaaaaaaaaaa" }).2.1 (by decide) (by decide)
    (by decide)
  have h3 := (c4_project_userid_check 5 "p1"
    [{ id := "507f1f77bcf86cd799439011", username := "ana",
       email := "ana@example.com", fullName := "Ana A", isActive := false }] []
    { title := some "Portfolio Website",
      description := some "A modern portfolio website",
      technologies := some ["React"],
      userId := some "507f1f77bcf86cd799439011" }).2.2 (by decide) (by decide)
    (by decide) (by decide)
  exact ⟨by rw [h1.1], by rw [h2.1], h3.1⟩

/-- C5: the Skill list category filter is case-insensitive — for every
store, the queries Frontend and frontend return the same data and count —
and a proficiencyLevel query value that does not parse to an integer in
1..5 is silently ignored, returning the data and count of the unfiltered
active list. -/
theorem c5_skill_list_filters (store : List Skill) (p : String)
    (q : Option String) :
    ((listSkills store (some "Frontend") q).data =
       (listSkills store (some "frontend") q).data ∧
     (listSkills store (some "Frontend") q).count =
       (listSkills store (some "frontend") q).count) ∧
    ((∀ l, jsParseInt p = some l → l < 1 ∨ 5 < l) →
      (listSkills store none (some p)).data =
        (listSkills store none none).data ∧
      (listSkills store none (some p)).count =
        (listSkills store none none).count) := by
  constructor
  · have e : skillCategoryFilter (some "Frontend") =
        skillCategoryFilter (some "frontend") := rfl
    constructor <;> simp [listSkills, e]
  · intro h
    have hlvl : skillLevelFilter (some p) = none := by
      by_cases hp : p = ""
      · simp [skillLevelFilter, hp]
      · cases hj : jsParseInt p with
        | none => simp [skillLevelFilter, hp, hj]
        | some l =>
          have hout := h l hj
          have h1 : ¬(1 ≤ l) ∨ ¬(l ≤ 5) := by omega
          have hb : (1 ≤ l && l ≤ 5) = false := by
            rcases h1 with hn | hn <;> simp [hn]
          simp [skillLevelFilter, hp, hj, hb]
    have e0 : skillLevelFilter none = none := rfl
    constructor <;> simp [listSkills, hlvl, e0]

/-- Closed instance of `c5_skill_list_filters`: on a two-skill store the
Frontend and frontend queries agree, and the out-of-range level query 7
returns the unfiltered active list. -/
theorem c5_skill_list_filters_witness :
    ((listSkills
        [{ name := "React", category := "frontend", proficiencyLevel := 5,
           createdAt := 2, updatedAt := 2 },
         { name := "Docker", category := "devops", proficiencyLevel := 3,
           createdAt := 1, updatedAt := 1 }] (some "Frontend") none).data =
      (listSkills
        [{ name := "React", category := "frontend", proficiencyLevel := 5,
           createdAt := 2, updatedAt := 2 },
         { name := "Docker", category := "devops", proficiencyLevel := 3,
           createdAt := 1, updatedAt := 1 }] (some "frontend") none).data) ∧
    ((listSkills
        [{ name := "React", category := "frontend", proficiencyLevel := 5,
           createdAt := 2, updatedAt := 2 },
         { name := "Docker", category := "devops", proficiencyLevel := 3,
           createdAt := 1, updatedAt := 1 }] none (some "7")).data =
      (listSkills
        [{ name := "React", category := "frontend", proficiencyLevel := 5,
           createdAt := 2, updatedAt := 2 },
         { name := "Docker", category := "devops", proficiencyLevel := 3,
           createdAt := 1, updatedAt := 1 }] none none).data) := by
  have h := c5_skill_list_filters
    [{ name := "React", category := "frontend", proficiencyLevel := 5,
       createdAt := 2, updatedAt := 2 },
     { name := "Docker", category := "devops", proficiencyLevel := 3,
       createdAt := 1, updatedAt := 1 }] "7" none
  exact ⟨h.1.1, (h.2 (by decide)).1⟩

/-- C6: every login whose credential pair is not exactly the fixed
admin pair fails 401 Invalid credentials without touching the token set,
and the failure response is one shared value, identical no matter which
of the two fields was wrong. -/
theorem c6_login_mismatch_uniform (b1 b2 : LoginBody) (r : List Nat)
    (vt : List String)
    (h1 : ¬(b1.username = some "admin" ∧ b1.password = some "password123"))
    (h2 : ¬(b2.username = some "admin" ∧ b2.password = some "password123")) :
    (login b1 r vt).1.status = 401 ∧
    (login b1 r vt).1.error = some "Invalid credentials" ∧
    (login b1 r vt).2 = vt ∧
    (login b1 r vt).1 = (login b2 r vt).1 := by
  have key : ∀ b : LoginBody,
      ¬(b.username = some "admin" ∧ b.password = some "password123") →
      (b.username == some "admin" && b.password == some "password123") = false := by
    intro b hb
    cases hc : (b.username == some "admin" && b.password == some "password123")
    · rfl
    · exact absurd (by simpa [Bool.and_eq_true] using hc) hb
  have e1 := key b1 h1
  have e2 := key b2 h2
  refine ⟨?_, ?_, ?_, ?_⟩ <;> simp [login, e1, e2]

/-- Closed instance of `c6_login_mismatch_uniform`: a wrong password and a
wrong username produce the identical 401 response. -/
theorem c6_login_mismatch_uniform_witness :
    (login { username := some "admin", password := some "wrong" } [] []).1.status = 401 ∧
    (login { username := some "admin", password := some "wrong" } [] []).1 =
      (login { username := some "nobody", password := some "password123" } [] []).1 := by
  have h := c6_login_mismatch_uniform
    { username := some "admin", password := some "wrong" }
    { username := some "nobody", password := some "password123" } [] []
    (by decide) (by decide)
  exact ⟨h.1, h.2.2.2⟩

/-- C9: every failed login answers 401 with, beyond the error kind, a hint
field spelling out the accepted username and password — the working
credential pair is disclosed to the caller on every mismatch. -/
theorem c9_login_hint_discloses_pair (b : LoginBody) (r : List Nat)
    (vt : List String)
    (h : ¬(b.username = some "admin" ∧ b.password = some "password123")) :
    (login b r vt).1.status = 401 ∧
    (login b r vt).1.error = some "Invalid credentials" ∧
    (login b r vt).1.hint =
      some "Use username: admin, password: password123" := by
  have e : (b.username == some "admin" && b.password == some "password123") = false := by
    cases hc : (b.username == some "admin" && b.password == some "password123")
    · rfl
    · exact absurd (by simpa [Bool.and_eq_true] using hc) h
  refine ⟨?_, ?_, ?_⟩ <;> simp [login, e]

/-- Closed instance of `c9_login_hint_discloses_pair`. -/
theorem c9_login_hint_discloses_pair_witness :
    (login { username := some "admin", password := some "oops" } [] []).1.hint =
      some "Use username: admin, password: password123" :=
  (c9_login_hint_discloses_pair
    { username := some "admin", password := some "oops" } [] []
    (by decide)).2.2

/-- C7: a token is the hex encoding of 32 fresh random bytes — 64 hex
characters carrying the full 8 x 32 = 256 bits of input entropy, at least
128 bits, since the encoding is injective — the issued token is a member
of the valid set afterwards (so `checkToken` accepts it, also after a
further issue), and two issues from distinct random draws never return
the same token. -/
theorem c7_token_gate_issue (r1 r2 : List Nat) (vt : List String)
    (hl1 : r1.length = 32) (hl2 : r2.length = 32)
    (hb1 : ∀ b ∈ r1, b < 256) (hb2 : ∀ b ∈ r2, b < 256)
    (hne : r1 ≠ r2) :
    (generateToken r1 vt).1 ≠ (generateToken r2 (generateToken r1 vt).2).1 ∧
    checkToken (generateToken r1 vt).1 (generateToken r1 vt).2 = true ∧
    checkToken (generateToken r2 (generateToken r1 vt).2).1
      (generateToken r2 (generateToken r1 vt).2).2 = true ∧
    checkToken (generateToken r1 vt).1
      (generateToken r2 (generateToken r1 vt).2).2 = true ∧
    ((generateToken r1 vt).1).length = 64 ∧
    128 ≤ 4 * ((generateToken r1 vt).1).length := by
  refine ⟨?_, generateToken_check r1 vt, generateToken_check r2 _, ?_, ?_, ?_⟩
  · intro hEq
    exact hne (bytesToHex_inj r1 r2 hb1 hb2 hEq)
  · exact generateToken_mono r2 _ _ (generateToken_check r1 vt)
  · show (bytesToHex r1).length = 64
    rw [bytesToHex_length, hl1]
  · show 128 ≤ 4 * (bytesToHex r1).length
    rw [bytesToHex_length, hl1]
    omega

/-- Closed instance of `c7_token_gate_issue` at two concrete random
draws. -/
theorem c7_token_gate_issue_witness :
    (generateToken (List.replicate 32 0) []).1 ≠
      (generateToken (List.replicate 32 255)
        (generateToken (List.replicate 32 0) []).2).1 ∧
    checkToken (generateToken (List.replicate 32 0) []).1
      (generateToken (List.replicate 32 0) []).2 = true ∧
    ((generateToken (List.replicate 32 0) []).1).length = 64 := by
  have h := c7_token_gate_issue (List.replicate 32 0) (List.replicate 32 255) []
    (by decide) (by decide) (by decide) (by decide) (by decide)
  exact ⟨h.1, h.2.1, h.2.2.2.2.1⟩

/-- C10: the skill update and soft-delete handlers match the key by an
anchored case-insensitive regex while the user and theme handlers require
exact case-sensitive equality, so the key go reaches a stored record named
Go only through the skill routes: skill update and delete succeed, user
and theme update and delete answer 404. -/
theorem c10_key_match_inconsistency (now : Nat) (sk : Skill) (u : User)
    (t : Theme)
    (hs : sk.name = "Go") (hsa : sk.isActive = true)
    (hu : u.username = "Go") (hua : u.isActive = true)
    (ht : t.themeName = "Go") (hta : t.isActive = true) :
    (updateSkill [sk] "go" {}).1.status = 200 ∧
    (deleteSkill [sk] "go").1.status = 200 ∧
    (updateUser [u] "go" {}).1.status = 404 ∧
    (deleteUser [u] "go").1.status = 404 ∧
    (updateTheme [t] "go" {}).1.status = 404 ∧
    (deleteTheme now [t] "go").1.status = 404 := by
  have hci : ciEq sk.name "go" = true := by rw [hs]; rfl
  have hun : (u.username == "go") = false := by rw [hu]; rfl
  have htn : (t.themeName == "go") = false := by rw [ht]; rfl
  refine ⟨?_, ?_, ?_, ?_, ?_, ?_⟩
  · simp [updateSkill, skillUpdateErrors, hci, hsa]
  · simp [deleteSkill, hci, hsa]
  · simp [updateUser, userUpdateErrors, hun]
  · simp [deleteUser, hun]
  · simp [updateTheme, themeUpdateErrors, htn]
  · simp [deleteTheme, htn]

/-- Closed instance of `c10_key_match_inconsistency` at concrete records
named Go. -/
theorem c10_key_match_inconsistency_witness :
    (updateSkill
      [{ name := "Go", category := "backend", proficiencyLevel := 4 }]
      "go" {}).1.status = 200 ∧
    (deleteUser
      [{ id := "u1", username := "Go", email := "go@example.com",
         fullName := "Go User" }]
      "go").1.status = 404 := by
  have h := c10_key_match_inconsistency 0
    { name := "Go", category := "backend", proficiencyLevel := 4 }
    { id := "u1", username := "Go", email := "go@example.com",
      fullName := "Go User" }
    { themeName := "Go", primaryColor := "#FFFFFF",
      secondaryColor := "#000000", fontFamily := "Arial" }
    (by decide) (by decide) (by decide) (by decide) (by decide) (by decide)
  exact ⟨h.1, h.2.2.2.1⟩

/-- The create handler either rejects (store unchanged) or appends the
one new record. -/
theorem createUser_store (now : Nat) (newId : String) (s : List User)
    (b : UserInput) :
    (createUser now newId s b).2 = s ∨
    (createUser now newId s b).2 = s ++ [mkUser now newId b] := by
  simp only [createUser]
  split_ifs <;> simp

/-- The update handler either rejects (store unchanged) or rewrites the
first matched record in place. -/
theorem updateUser_store (s : List User) (k : String) (b : UserUpdate) :
    (updateUser s k b).2 = s ∨
    (updateUser s k b).2 =
      updateFirstBy (fun u => u.username == k && u.isActive)
        (applyUserUpdate b) s := by
  simp only [updateUser]
  by_cases h1 : userUpdateErrors b ≠ []
  · rw [if_pos h1]
    exact Or.inl rfl
  · rw [if_neg h1]
    cases hf : s.find? (fun u => u.username == k && u.isActive) with
    | none => simp [hf]
    | some m =>
      simp only [hf]
      by_cases h2 : (s.any fun v =>
          v.email == (applyUserUpdate b m).email && v.username != m.username) = true
      · rw [if_pos h2]
        exact Or.inl rfl
      · rw [if_neg h2]
        exact Or.inr rfl

/-- The soft-delete handler either answers 404 (store unchanged) or flips
the first matched record in place. -/
theorem deleteUser_store (s : List User) (k : String) :
    (deleteUser s k).2 = s ∨
    (deleteUser s k).2 =
      updateFirstBy (fun u => u.username == k && u.isActive)
        (fun u => { u with isActive := false }) s := by
  simp only [deleteUser]
  by_cases h : (s.any fun u => u.username == k && u.isActive) = true
  · rw [if_pos h]
    exact Or.inr rfl
  · rw [if_neg h]
    exact Or.inl rfl

/-- Every operation leaves the initial usernames in place, in order, and
can only append new ones. -/
theorem applyUserOp_usernames (now : Nat) (s : List User) (op : UserOp) :
    ∃ t, (applyUserOp now s op).map (fun u => u.username) =
      s.map (fun u => u.username) ++ t := by
  cases op with
  | list => exact ⟨[], by simp [applyUserOp]⟩
  | get k => exact ⟨[], by simp [applyUserOp]⟩
  | create newId b =>
    rcases createUser_store now newId s b with h | h
    · exact ⟨[], by simp [applyUserOp, h]⟩
    · exact ⟨[(mkUser now newId b).username], by simp [applyUserOp, h]⟩
  | update k b =>
    rcases updateUser_store s k b with h | h
    · exact ⟨[], by simp [applyUserOp, h]⟩
    · refine ⟨[], ?_⟩
      simp only [applyUserOp, h, List.append_nil]
      exact updateFirstBy_map (fun u => u.username == k && u.isActive)
        (applyUserUpdate b) (fun u => u.username) (fun x => rfl) s
  | softDelete k =>
    rcases deleteUser_store s k with h | h
    · exact ⟨[], by simp [applyUserOp, h]⟩
    · refine ⟨[], ?_⟩
      simp only [applyUserOp, h, List.append_nil]
      exact updateFirstBy_map (fun u => u.username == k && u.isActive)
        (fun u => { u with isActive := false }) (fun u => u.username)
        (fun x => rfl) s

/-- C8: list and get-by-key do not change the store; soft-delete only
flips `isActive` to false on the matched record, keeping every username;
and over every sequence of API operations the initial records survive in
order under their usernames — no operation ever removes a record (create
can only append). -/
theorem c8_no_removal (now : Nat) (store : List User) (ops : List UserOp)
    (k : String) :
    applyUserOp now store UserOp.list = store ∧
    applyUserOp now store (UserOp.get k) = store ∧
    List.Forall₂
      (fun a b => (b = a ∨ b = { a with isActive := false }) ∧
        b.username = a.username)
      store (applyUserOp now store (UserOp.softDelete k)) ∧
    (∃ t, (runUserOps now store ops).map (fun u => u.username) =
      store.map (fun u => u.username) ++ t) := by
  refine ⟨rfl, rfl, ?_, ?_⟩
  · have base : List.Forall₂ (fun a b => b = a ∨
        b = { a with isActive := false }) store
        (applyUserOp now store (UserOp.softDelete k)) := by
      rcases deleteUser_store store k with h | h
      · rw [show applyUserOp now store (UserOp.softDelete k) =
          (deleteUser store k).2 from rfl, h]
        exact (List.forall₂_same).2 (fun a _ => Or.inl rfl)
      · rw [show applyUserOp now store (UserOp.softDelete k) =
          (deleteUser store k).2 from rfl, h]
        exact updateFirstBy_forall2 _ _ store
    refine base.imp ?_
    intro a b hab
    refine ⟨hab, ?_⟩
    rcases hab with h | h <;> subst h <;> rfl
  · induction ops generalizing store with
    | nil => exact ⟨[], by simp [runUserOps]⟩
    | cons op ops ih =>
      obtain ⟨t1, h1⟩ := applyUserOp_usernames now store op
      obtain ⟨t2, h2⟩ := ih (applyUserOp now store op)
      refine ⟨t1 ++ t2, ?_⟩
      rw [show runUserOps now store (op :: ops) =
        runUserOps now (applyUserOp now store op) ops from rfl, h2, h1,
        List.append_assoc]

end Portfolio
